import Mathlib

/-!
Verification development for the Trackimo draft-overlay core (TypeScript
frontend).  The definitions below are shallow embeddings of the functions in
`src/src/App.tsx`, `src/src/DraftView.tsx`,
`src/src/components/draft/TeamView.tsx`,
`src/src/components/draft/RecommendationsPanel.tsx`, and the `PickCard` /
`DraftView` variants in `src/unnamed/part_002`, `part_004`, `part_006`.
JavaScript numbers are modelled as `Int` (identifiers) or `Rat` (timer
values); optional fields are `Option`; JS truthiness of an optional number
(`null`/`undefined`/`0` are falsy) is `jsTruthy`, and of an optional string
(`undefined`/`""` falsy) is `strTruthy`.
-/

namespace Trackimo

/-- JS truthiness of an optional number: `null`, `undefined` and `0` are
falsy, every other number is truthy. -/
def jsTruthy : Option Int → Bool
  | none => false
  | some v => v != 0

/-- JS truthiness of an optional string: `undefined` and `""` are falsy. -/
def strTruthy : Option String → Bool
  | none => false
  | some s => s != ""

/-- JS `a || b` on optional strings: `a` when truthy, else `b`. -/
def jsOrStr (a b : Option String) : Option String :=
  if strTruthy a then a else b

/-- JS `s.includes(sub)` on strings. -/
def strIncludes (s sub : String) : Bool :=
  decide (sub.data <:+: s.data)

/-- Embeds `Cell` from `src/src/types.ts`: a pick slot. -/
structure Cell where
  cell_id : Int
  champion_id : Option Int := none
  selected_champion_id : Option Int := none
  assigned_position : Option String := none
deriving Repr, DecidableEq

/-- Embeds `ChampionBan` from `src/src/types.ts`. -/
structure ChampionBan where
  champion_id : Int
  cell_id : Option Int := none
  completed : Bool := false
deriving Repr, DecidableEq

/-- Embeds `DraftAction` from `src/src/types.ts`. -/
structure DraftAction where
  id : Int
  actor_cell_id : Option Int := none
  champion_id : Option Int := none
  completed : Bool := false
  is_in_progress : Bool := false
  type : String
deriving Repr, DecidableEq

/-- Embeds `Team` from `src/src/types.ts` (the `picks` list is unused by the core
logic and omitted). -/
structure Team where
  team_id : Int
  cells : List Cell := []
  bans : List ChampionBan := []
deriving Repr, DecidableEq

/-- Embeds `DraftState` from `src/src/types.ts`. -/
structure DraftState where
  timer : Option Rat := none
  phase : String := ""
  teams : List Team := []
  actions : List DraftAction := []
  local_player_cell_id : Option Int := none
deriving Repr, DecidableEq

/-- JS truthiness of the optional `timer` number. -/
def jsTruthyQ : Option Rat → Bool
  | none => false
  | some v => v != 0

/-! ## Action Classifier (`TeamView.tsx`, lines 86-104) -/

/-- Embeds `draftState.actions.find(action => action.type === "pick" &&
action.actor_cell_id === cell.cell_id && action.is_in_progress &&
!action.completed)` — `TeamView.tsx` lines 91-96. -/
def activePickAction (actions : List DraftAction) (cellId : Int) : Option DraftAction :=
  actions.find? fun action =>
    action.type == "pick" && action.actor_cell_id == some cellId &&
      action.is_in_progress && !action.completed

/-- Embeds `isActivelySelecting` — `TeamView.tsx` line 101: an in-progress pick
action references the cell, the cell has a nonzero preselected champion, and
no locked champion. -/
def isActivelySelecting (actions : List DraftAction) (cell : Cell) : Bool :=
  (activePickAction actions cell.cell_id).isSome &&
    (match cell.selected_champion_id with
     | some p => p != 0
     | none => false) &&
    !(jsTruthy cell.champion_id)

/-- Embeds `isPreLocked` — `TeamView.tsx` line 103: a nonzero preselected champion
with no in-progress action and no locked champion. -/
def isPreLocked (actions : List DraftAction) (cell : Cell) : Bool :=
  !(activePickAction actions cell.cell_id).isSome &&
    (match cell.selected_champion_id with
     | some p => p != 0
     | none => false) &&
    !(jsTruthy cell.champion_id)

/-- Embeds `isLocked` — `TeamView.tsx` line 104:
`lockedChampId != null && lockedChampId !== 0`. -/
def isLocked (cell : Cell) : Bool :=
  match cell.champion_id with
  | some v => v != 0
  | none => false

/-- The four display states of a pick cell (spec section 4.1). -/
inductive CellState
  | EMPTY
  | ACTIVELY_SELECTING
  | PROVISIONAL
  | LOCKED
deriving Repr, DecidableEq

/-- Cell classification, in the priority order of the `PickCard` render
(`PickCard.tsx` line 87: `isLocked ? "LOCKED" : isPreLocked ? "PRE-LOCKED"
: isActivelySelecting ? "SELECTING..." : ""`). -/
def classifyCell (actions : List DraftAction) (cell : Cell) : CellState :=
  if isLocked cell then .LOCKED
  else if isPreLocked actions cell then .PROVISIONAL
  else if isActivelySelecting actions cell then .ACTIVELY_SELECTING
  else .EMPTY

/-! ## Timer Reconciler (`src/src/DraftView.tsx`, lines 11-38) -/

/-- Embeds `PICK_TIMER` — `DraftView.tsx` line 11. -/
def PICK_TIMER : Rat := 30

/-- Embeds `BAN_TIMER` — `DraftView.tsx` line 12. -/
def BAN_TIMER : Rat := 30

/-- The local timer-reconciliation state of `DraftView`: the displayed
value (`currentTimer`), the phase ceiling (`maxTimer`), and whether the
100ms countdown interval is installed. -/
structure TimerState where
  currentTimer : Rat
  maxTimer : Rat
  intervalActive : Bool
deriving Repr, DecidableEq

/-- Initial `useState` values — `DraftView.tsx` lines 15-16. -/
def initTimerState : TimerState :=
  { currentTimer := 0, maxTimer := PICK_TIMER, intervalActive := false }

/-- Processing a snapshot replacement in `DraftView`.  The first effect
(lines 18-24) re-baselines only when `draftState?.timer` is truthy:
`setCurrentTimer(draftState.timer)` and
`setMaxTimer(draftState.phase.includes("BAN") ? BAN_TIMER : PICK_TIMER)`.
The second effect (lines 27-38) clears the previous interval and installs a
new one only when `draftState.timer` is truthy. -/
def onSnapshot (s : TimerState) (ds : DraftState) : TimerState :=
  let s1 :=
    if jsTruthyQ ds.timer then
      { s with currentTimer := ds.timer.getD 0,
               maxTimer := if strIncludes ds.phase "BAN" then BAN_TIMER else PICK_TIMER }
    else s
  { s1 with intervalActive := jsTruthyQ ds.timer }

/-- One 100ms countdown tick — `DraftView.tsx` lines 30-35:
`setCurrentTimer(prev => prev <= 0 ? 0 : Math.max(0, prev - 0.1))`, run only
while the interval is installed. -/
def tick (s : TimerState) : TimerState :=
  if s.intervalActive then
    { s with currentTimer := if s.currentTimer ≤ 0 then 0 else max 0 (s.currentTimer - 1/10) }
  else s

/-! ## Identity & Role Resolver (`TeamView.tsx`, `PickCard` in
`src/unnamed/part_006`, `DraftView` in `src/unnamed/part_002`) -/

/-- The `manualRoles` map (`Map<number, string>`), as an association list. -/
abbrev RoleMap := List (Int × String)

/-- Embeds `manualRoles.get(cellId)`. -/
def mapGet (m : RoleMap) (k : Int) : Option String :=
  (m.find? fun p => p.1 == k).map Prod.snd

/-- Embeds `displayRole` — `TeamView.tsx` line 107:
`cell.assigned_position || manualRoles.get(cell.cell_id)`. -/
def displayRole (manualRoles : RoleMap) (cell : Cell) : Option String :=
  jsOrStr cell.assigned_position (mapGet manualRoles cell.cell_id)

/-- Embeds `getTakenRoles` — `TeamView.tsx` lines 49-54: roles held (assigned or
manual) by every cell of the team other than `cellId`, dropping
`undefined` and `""`. -/
def getTakenRoles (team : Team) (manualRoles : RoleMap) (cellId : Int) : List String :=
  ((team.cells.filter fun c => c.cell_id != cellId).map
      fun c => jsOrStr c.assigned_position (mapGet manualRoles c.cell_id)).filterMap
    fun role => match role with
      | some r => if r == "" then none else some r
      | none => none

/-- The five role keys of `ROLES` — `part_006` lines 19-25 (icon and label
fields omitted). -/
def ROLES : List String := ["TOP", "JUNGLE", "MIDDLE", "BOTTOM", "UTILITY"]

/-- Embeds `availableRoles` — `part_006` lines 154-156:
`ROLES.filter(role => !takenRoles.includes(role.key) ||
assignedPosition === role.key)`, where `assignedPosition` is the cell's
displayed role. -/
def availableRoles (takenRoles : List String) (assignedPosition : Option String) :
    List String :=
  ROLES.filter fun r => !takenRoles.contains r || assignedPosition == some r

/-- First cell with the given id across the teams, in team order — the
`for`-loop search used by `getCurrentPlayerRole` (`part_002` lines 123-129)
and `hasPlayerLockedChampion` (`RecommendationsPanel.tsx` lines 82-88). -/
def findPlayerCell (ds : DraftState) (cid : Int) : Option Cell :=
  (ds.teams.filterMap fun t => t.cells.find? fun c => c.cell_id == cid).head?

/-- Embeds `getCurrentPlayerRole` — `DraftView` in `part_002` lines 119-131: the
role sent with the advisory request is
`manualRoles.get(cell.cell_id) || cell.assigned_position`. -/
def getCurrentPlayerRole (ds : DraftState) (manualRoles : RoleMap) : Option String :=
  match ds.local_player_cell_id with
  | none => none
  | some cid =>
    match findPlayerCell ds cid with
    | some cell => jsOrStr (mapGet manualRoles cell.cell_id) cell.assigned_position
    | none => none

/-- Embeds `getPlayerTeamId` — `TeamView.tsx` lines 32-40: the first team
containing the current player's cell. -/
def getPlayerTeamId (ds : DraftState) (currentPlayerCellId : Option Int) : Option Int :=
  match currentPlayerCellId with
  | none => none
  | some cid =>
    (ds.teams.find? fun t => t.cells.any fun c => c.cell_id == cid).map Team.team_id

/-- Embeds `isPlayerTeam` — `TeamView.tsx` lines 44-46:
`currentPlayerCellId ? playerTeamId === team.team_id : isBlue`. -/
def isPlayerTeam (ds : DraftState) (team : Team) (currentPlayerCellId : Option Int)
    (isBlue : Bool) : Bool :=
  if jsTruthy currentPlayerCellId then
    getPlayerTeamId ds currentPlayerCellId == some team.team_id
  else isBlue

/-- Embeds `isCurrentPlayer` — `TeamView.tsx` lines 112-114:
`currentPlayerCellId ? cell.cell_id === currentPlayerCellId
: (cell.cell_id === selectedCellForRole ||
(isPlayerTeam && !selectedCellForRole))`. -/
def isCurrentPlayer (cell : Cell) (currentPlayerCellId selectedCellForRole : Option Int)
    (playerTeamB : Bool) : Bool :=
  if jsTruthy currentPlayerCellId then
    some cell.cell_id == currentPlayerCellId
  else
    some cell.cell_id == selectedCellForRole ||
      (playerTeamB && !(jsTruthy selectedCellForRole))

/-- The role-selection affordance is rendered for a cell exactly when the
cell is on the player's team and `isCurrentPlayer` holds (`PickCard` in
`part_006`, lines 209-258 and 300-350). -/
def roleSelectionOffered (ds : DraftState) (team : Team) (cell : Cell)
    (currentPlayerCellId selectedCellForRole : Option Int) (isBlue : Bool) : Bool :=
  isPlayerTeam ds team currentPlayerCellId isBlue &&
    isCurrentPlayer cell currentPlayerCellId selectedCellForRole
      (isPlayerTeam ds team currentPlayerCellId isBlue)

/-! ## Advisory Coordinator (`RecommendationsPanel.tsx`) -/

/-- Embeds `Recommendation` — `RecommendationsPanel.tsx` lines 12-15. -/
structure Recommendation where
  champion_id : Int
  score : Rat
deriving Repr, DecidableEq

/-- Embeds `RecommendationsResult` — `RecommendationsPanel.tsx` lines 17-20. -/
structure RecommendationsResult where
  recommendations : List Recommendation
  win_probability : Rat
deriving Repr, DecidableEq

/-- Embeds `getCurrentPlayerCellId` — `RecommendationsPanel.tsx` lines 33-38: the
actor of the first in-progress, uncompleted pick action
(`activeAction?.actor_cell_id ?? null`). -/
def getCurrentPlayerCellId (ds : DraftState) : Option Int :=
  (ds.actions.find? fun action =>
      action.type == "pick" && action.is_in_progress && !action.completed).bind
    DraftAction.actor_cell_id

/-- Embeds `getTeamPrelocks` — `RecommendationsPanel.tsx` lines 41-72: nonzero
positive provisional champion ids of unlocked teammates (self excluded) on
the current player's team. -/
def getTeamPrelocks (ds : DraftState) : List Int :=
  match getCurrentPlayerCellId ds with
  | none => []
  | some currentCellId =>
    match (ds.teams.find? fun t =>
        t.cells.any fun c => c.cell_id == currentCellId).map Team.team_id with
    | none => []
    | some currentTeamId =>
      match ds.teams.find? fun t => t.team_id == currentTeamId with
      | none => []
      | some team =>
        (team.cells.filter fun c =>
            !(c.cell_id == currentCellId) && !(jsTruthy c.champion_id)).filterMap
          fun c =>
            match c.selected_champion_id with
            | some p => if p != 0 && p > 0 then some p else none
            | none => none

/-- Embeds `hasPlayerLockedChampion` — `RecommendationsPanel.tsx` lines 77-90:
whether the cell of the current player (per `getCurrentPlayerCellId`)
carries a truthy `champion_id`. -/
def hasPlayerLockedChampion (ds : DraftState) : Bool :=
  match getCurrentPlayerCellId ds with
  | none => false
  | some currentCellId =>
    match findPlayerCell ds currentCellId with
    | some cell => jsTruthy cell.champion_id
    | none => false

/-- The panel's `useState` triple — `RecommendationsPanel.tsx` lines 28-30. -/
structure PanelState where
  recommendations : Option RecommendationsResult := none
  loading : Bool := false
  error : Option String := none
deriving Repr, DecidableEq

/-- Observable events of one `fetchRecommendations` run — lines 94-111:
the fetch starting, the `invoke` promise resolving, or rejecting. -/
inductive PanelEvent
  | start
  | success (result : RecommendationsResult)
  | failure (msg : String)
deriving Repr, DecidableEq

/-- State update of `fetchRecommendations` — lines 94-111: starting sets
`loading` and clears `error`; a resolved request applies
`setRecommendations(result)` unconditionally (line 103) — there is no
generation token and no staleness check; a rejected request stores the
error message; both clear `loading`. -/
def panelStep (s : PanelState) : PanelEvent → PanelState
  | .start => { s with loading := true, error := none }
  | .success result => { s with recommendations := some result, loading := false }
  | .failure msg => { s with error := some msg, loading := false }

/-- The panel state after a wall-clock-ordered sequence of fetch events. -/
def panelRun (s : PanelState) (events : List PanelEvent) : PanelState :=
  events.foldl panelStep s

/-- What the panel renders — `RecommendationsPanel.tsx` lines 119-263. -/
inductive PanelRender
  | hidden
  | loadingView
  | errorView (msg : String)
  | content (teamPrelocks : List Int) (recs : Option RecommendationsResult)
deriving Repr, DecidableEq

/-- The render function of `RecommendationsPanel` — lines 119-143: `null`
when `hasPlayerLockedChampion()`, else the loading view, else the error
view, else `null` when there are neither recommendations nor team
prelocks, else the content. -/
def renderPanel (ds : DraftState) (s : PanelState) : PanelRender :=
  if hasPlayerLockedChampion ds then .hidden
  else if s.loading then .loadingView
  else
    match s.error with
    | some msg => .errorView msg
    | none =>
      if (match s.recommendations with
          | none => true
          | some r => r.recommendations.isEmpty) && (getTeamPrelocks ds).isEmpty then
        .hidden
      else .content (getTeamPrelocks ds) s.recommendations

/-- The effect's pending debounced fetch: the payload (`draftState`,
`currentPlayerRole`) captured by the `setTimeout` closure. -/
structure PanelEffectState where
  pending : Option (DraftState × Option String) := none
deriving Repr, DecidableEq

/-- The debounced effect — `RecommendationsPanel.tsx` lines 92-116: on
every change of `draftState` or `currentPlayerRole`, the cleanup clears the
previously scheduled timeout and a new fetch is scheduled for the latest
payload, unconditionally — there is no check of the lock state here. -/
def onDraftChange (_s : PanelEffectState) (ds : DraftState) (role : Option String) :
    PanelEffectState :=
  { pending := some (ds, role) }

/-- The debounce delay of 300ms — `RecommendationsPanel.tsx` line 114. -/
def DEBOUNCE_MS : Nat := 300

/-- The advisory requests issued for a time-stamped sequence of triggering
changes (times in ms, non-decreasing): the timeout scheduled at a change
fires unless the next change arrives strictly before `DEBOUNCE_MS` has
elapsed, in which case the cleanup (`clearTimeout`, line 115) cancels it. -/
def debouncedRequests {α : Type} : List (Nat × α) → List α
  | [] => []
  | e :: rest =>
    match rest with
    | [] => [e.2]
    | e2 :: _ =>
      if e2.1 < e.1 + DEBOUNCE_MS then debouncedRequests rest
      else e.2 :: debouncedRequests rest

/-! ## Connection Supervisor (`src/src/App.tsx`) -/

/-- Marker for a loaded `SummonerInfo` payload (contents irrelevant to the
supervisor; only presence/absence matters). -/
structure SummonerInfo where
  display_name : String
deriving Repr, DecidableEq

/-- The `App` state relevant to connection supervision — `App.tsx` lines
11-21.  `rankedStats` and `matchHistory` entries are reduced to plain
markers; only emptiness matters to the supervisor. -/
structure AppState where
  draftState : Option DraftState := none
  summonerInfo : Option SummonerInfo := none
  rankedStats : List String := []
  matchHistory : List Int := []
  monitoringStarted : Bool := false
  previousConnected : Bool := false
deriving Repr, DecidableEq

/-- The `catch` branch of `autoConnect` — `App.tsx` lines 143-150: when the
connectivity probe (`get_gameflow_phase`) throws, the connection flags and
player info are cleared; `draftState` is not touched. -/
def autoConnectFail (s : AppState) : AppState :=
  { s with previousConnected := false, monitoringStarted := false,
           summonerInfo := none, rankedStats := [], matchHistory := [] }

/-- One phase-poll tick — `App.tsx` lines 44-55.  `none` models the probe
throwing (the catch comment reads "Ignore errors - LCU might be
disconnected"); a returned phase outside champ select clears the snapshot
when one is current. -/
def phaseCheckTick (s : AppState) (probeResult : Option String) : AppState :=
  match probeResult with
  | none => s
  | some phase =>
    if s.draftState.isSome && phase != "ChampSelect" && phase != "ChampionSelect" then
      { s with draftState := none }
    else s

/-! ## Session transition system for role selection (`DraftView` in
`part_002`, `TeamView.tsx`, `PickCard` in `part_006`) -/

/-- One draft session as seen by `DraftView`: the current snapshot and the
`manualRoles` map. -/
structure SessionState where
  draft : Option DraftState
  manualRoles : RoleMap
deriving Repr, DecidableEq

/-- Initial session: no snapshot, empty role map. -/
def initSession : SessionState := { draft := none, manualRoles := [] }

/-- Embeds `handleRoleSelect` — `part_002` lines 110-116: `Map.set(cellId, role)`. -/
def handleRoleSelect (m : RoleMap) (cellId : Int) (role : String) : RoleMap :=
  (cellId, role) :: m.filter fun p => p.1 != cellId

/-- Session transitions: a snapshot replaces the draft wholesale (the
`draft-state-changed` listener, `App.tsx` lines 38-41); the operator stores
a manual role only via the `RoleSelector` dropdown, which offers exactly
`availableRoles` of the cell (`part_006` lines 154-156 and 250-257); draft
end unmounts `DraftView`, resetting the manual role map. -/
inductive SessionStep : SessionState → SessionState → Prop
  | snapshot (s : SessionState) (ds : DraftState) :
      SessionStep s { s with draft := some ds }
  | roleSelect (s : SessionState) (ds : DraftState) (team : Team) (cell : Cell)
      (role : String)
      (hds : s.draft = some ds)
      (hteam : team ∈ ds.teams)
      (hcell : cell ∈ team.cells)
      (hoffer : role ∈ availableRoles
          (getTakenRoles team s.manualRoles cell.cell_id)
          (displayRole s.manualRoles cell)) :
      SessionStep s
        { s with manualRoles := handleRoleSelect s.manualRoles cell.cell_id role }
  | draftEnd (s : SessionState) :
      SessionStep s { draft := none, manualRoles := [] }

/-- Two cells of one team showing the same non-default role in the resolved
projection. -/
def duplicateDisplayedRole (s : SessionState) : Bool :=
  match s.draft with
  | none => false
  | some ds =>
    ds.teams.any fun t =>
      t.cells.any fun c1 =>
        t.cells.any fun c2 =>
          c1.cell_id != c2.cell_id &&
            (match displayRole s.manualRoles c1, displayRole s.manualRoles c2 with
             | some r1, some r2 => r1 == r2 && r1 != ""
             | _, _ => false)

/-! ## Concrete fixtures used by witnesses and counterexamples -/

/-- A response payload issued for the earlier advisory request (generation
g1). -/
def respEarlier : RecommendationsResult :=
  { recommendations := [{ champion_id := 10, score := 1/2 }], win_probability := 1/2 }

/-- A response payload issued for the later advisory request (generation
g2). -/
def respLater : RecommendationsResult :=
  { recommendations := [{ champion_id := 20, score := 3/4 }], win_probability := 3/5 }

/-- A snapshot in which the cell of the current pick actor (the operator's
cell, per `getCurrentPlayerCellId`) carries a nonzero locked champion. -/
def dsLocked : DraftState :=
  { phase := "PICK_1",
    teams := [{ team_id := 100,
                cells := [{ cell_id := 1, champion_id := some 42 }] }],
    actions := [{ id := 5, actor_cell_id := some 1, type := "pick",
                  is_in_progress := true, completed := false }] }

/-- A draft snapshot that is current mid-draft. -/
def dsInDraft : DraftState :=
  { phase := "BAN_1", timer := some 27, teams := [{ team_id := 100 }] }

/-- App state while connected and in a draft. -/
def appInDraft : AppState :=
  { draftState := some dsInDraft, summonerInfo := some { display_name := "operator" },
    rankedStats := ["RANKED_SOLO_5x5"], matchHistory := [111],
    monitoringStarted := true, previousConnected := true }

/-- Pick slot 1, no assigned role. -/
def cellOne : Cell := { cell_id := 1 }

/-- Pick slot 2, integration-assigned role TOP. -/
def cellTwoAssigned : Cell := { cell_id := 2, assigned_position := some "TOP" }

/-- Team before the integration assigns roles: neither cell has a role. -/
def teamBefore : Team := { team_id := 100, cells := [cellOne, { cell_id := 2 }] }

/-- The same team after the integration assigns TOP to cell 2. -/
def teamAfter : Team := { team_id := 100, cells := [cellOne, cellTwoAssigned] }

/-- Snapshot before the integration assigns roles. -/
def dsBefore : DraftState :=
  { phase := "PLANNING", teams := [teamBefore], local_player_cell_id := some 1 }

/-- Snapshot after the integration assigns TOP to the teammate's cell. -/
def dsAfter : DraftState :=
  { phase := "PLANNING", teams := [teamAfter], local_player_cell_id := some 1 }

/-- Session after `dsBefore` arrives. -/
def sessionOne : SessionState := { draft := some dsBefore, manualRoles := [] }

/-- Session after the operator manually picks TOP for cell 1. -/
def sessionTwo : SessionState :=
  { draft := some dsBefore, manualRoles := handleRoleSelect [] 1 "TOP" }

/-- Session after `dsAfter` arrives: cell 1 displays the manual TOP, cell 2
displays the assigned TOP. -/
def sessionBad : SessionState :=
  { draft := some dsAfter, manualRoles := handleRoleSelect [] 1 "TOP" }

/-- A distinct snapshot fixture per debounce-trigger index. -/
def snapAt (n : Int) : DraftState :=
  { phase := "PICK_1", local_player_cell_id := some n }

/-- A two-cell team used while no identity is known. -/
def teamNoId : Team := { team_id := 100, cells := [{ cell_id := 1 }, { cell_id := 2 }] }

/-- A snapshot without `local_player_cell_id` and with no in-progress
action: no confident local-player identity. -/
def dsNoId : DraftState := { phase := "PLANNING", teams := [teamNoId] }

/-- A snapshot whose operator cell (cell 1) has both an assigned position
(TOP) and, in the fixtures below, a manual role entry. -/
def dsBothRoles : DraftState :=
  { phase := "PLANNING",
    teams := [{ team_id := 100,
                cells := [{ cell_id := 1, assigned_position := some "TOP" }] }],
    local_player_cell_id := some 1 }

end Trackimo

namespace Trackimo

/-- C4: for every snapshot, a cell whose `lockedChampionId` is set and
nonzero classifies as LOCKED — never ACTIVELY_SELECTING, PROVISIONAL or
EMPTY — regardless of any in-progress action referencing the cell or any
provisional value it carries. -/
theorem locked_cell_classifies_locked (actions : List DraftAction) (cell : Cell)
    (c : Int) (hc : cell.champion_id = some c) (h0 : c ≠ 0) :
    classifyCell actions cell = CellState.LOCKED := by
  have hl : isLocked cell = true := by
    simp [isLocked, hc, h0]
  simp [classifyCell, hl]

/-- Witness for C4: a cell with a nonzero locked champion, a nonzero
provisional value, and a concurrent in-progress pick action referencing it
still classifies LOCKED. -/
theorem locked_cell_classifies_locked_witness :
    classifyCell
      [{ id := 7, actor_cell_id := some 3, champion_id := some 42,
         completed := false, is_in_progress := true, type := "pick" }]
      { cell_id := 3, champion_id := some 42, selected_champion_id := some 17,
        assigned_position := some "TOP" } = CellState.LOCKED :=
  locked_cell_classifies_locked _ _ 42 rfl (by decide)

/-- C7 counterexample: a snapshot with `timer = 27` followed by a snapshot
without a timer value.  The countdown interval is torn down and not
restarted (`intervalActive = false`), so a tick leaves the state unchanged:
the display freezes at 27 instead of continuing to interpolate downward. -/
theorem timerless_snapshot_freezes_counterexample :
    (onSnapshot (onSnapshot initTimerState
        { timer := some 27, phase := "PICK_1" })
        { timer := none, phase := "PICK_1" }).intervalActive = false ∧
    (onSnapshot (onSnapshot initTimerState
        { timer := some 27, phase := "PICK_1" })
        { timer := none, phase := "PICK_1" }).currentTimer = 27 ∧
    tick (onSnapshot (onSnapshot initTimerState
        { timer := some 27, phase := "PICK_1" })
        { timer := none, phase := "PICK_1" }) =
      onSnapshot (onSnapshot initTimerState
        { timer := some 27, phase := "PICK_1" })
        { timer := none, phase := "PICK_1" } := by
  refine ⟨rfl, by decide, ?_⟩
  decide

/-- C7 amended: a snapshot without a timer value leaves the displayed value
and ceiling unchanged (no reset to zero, no re-baseline), but it clears the
countdown interval without restarting it, so subsequent ticks leave the
display frozen until a snapshot with a truthy timer arrives. -/
theorem timerless_snapshot_retains_value (s : TimerState) (ds : DraftState)
    (h : ds.timer = none) :
    (onSnapshot s ds).currentTimer = s.currentTimer ∧
    (onSnapshot s ds).maxTimer = s.maxTimer ∧
    (onSnapshot s ds).intervalActive = false ∧
    tick (onSnapshot s ds) = onSnapshot s ds := by
  have ht : jsTruthyQ ds.timer = false := by simp [jsTruthyQ, h]
  refine ⟨?_, ?_, ?_, ?_⟩ <;> simp [onSnapshot, tick, ht]

/-- Witness for C7 amended at a concrete state and snapshot. -/
theorem timerless_snapshot_retains_value_witness :
    (onSnapshot { currentTimer := 13, maxTimer := 30, intervalActive := true }
        { timer := none, phase := "PICK_1" }).currentTimer = 13 ∧
    (onSnapshot { currentTimer := 13, maxTimer := 30, intervalActive := true }
        { timer := none, phase := "PICK_1" }).maxTimer = 30 ∧
    (onSnapshot { currentTimer := 13, maxTimer := 30, intervalActive := true }
        { timer := none, phase := "PICK_1" }).intervalActive = false ∧
    tick (onSnapshot { currentTimer := 13, maxTimer := 30, intervalActive := true }
        { timer := none, phase := "PICK_1" }) =
      onSnapshot { currentTimer := 13, maxTimer := 30, intervalActive := true }
        { timer := none, phase := "PICK_1" } :=
  timerless_snapshot_retains_value _ _ rfl

/-- C8 counterexample: a baseline update is not clamped to the ceiling.  A
snapshot carrying `timer = 57` in a pick phase sets the displayed value to
57 while `maxTimer = 30`, so the displayed value exceeds `maxTimer`. -/
theorem baseline_above_ceiling_counterexample :
    (onSnapshot initTimerState { timer := some 57, phase := "PICK_1" }).maxTimer <
      (onSnapshot initTimerState { timer := some 57, phase := "PICK_1" }).currentTimer := by
  decide

/-- C8 amended: ticks keep the displayed value within `[0, maxTimer]`, and a
baseline update keeps it within `[0, maxTimer]` provided the authoritative
timer value itself lies within `[0, 30]` (the common ban/pick ceiling); the
code does not clamp a baseline value that exceeds the ceiling. -/
theorem timer_in_range (s : TimerState) (ds : DraftState)
    (h0 : 0 ≤ s.currentTimer) (h1 : s.currentTimer ≤ s.maxTimer)
    (hds : ∀ t : Rat, ds.timer = some t → 0 ≤ t ∧ t ≤ 30) :
    (0 ≤ (onSnapshot s ds).currentTimer ∧
      (onSnapshot s ds).currentTimer ≤ (onSnapshot s ds).maxTimer) ∧
    (0 ≤ (tick s).currentTimer ∧ (tick s).currentTimer ≤ (tick s).maxTimer) := by
  have hm0 : 0 ≤ s.maxTimer := le_trans h0 h1
  constructor
  · match hd : ds.timer with
    | none => simp [onSnapshot, hd, jsTruthyQ, h0, h1]
    | some t =>
      rcases hds t hd with ⟨ht0, ht1⟩
      by_cases hz : t = 0
      · simp [onSnapshot, hd, jsTruthyQ, hz, h0, h1]
      · have hmax : (if strIncludes ds.phase "BAN" then BAN_TIMER else PICK_TIMER) = (30 : Rat) := by
          rcases Bool.eq_false_or_eq_true (strIncludes ds.phase "BAN") with hb | hb <;>
            simp [hb, BAN_TIMER, PICK_TIMER]
        simp [onSnapshot, hd, jsTruthyQ, hz, hmax, ht0, ht1]
  · rcases Bool.eq_false_or_eq_true s.intervalActive with hi | hi
    swap
    · have hT : tick s = s := by simp [tick, hi]
      rw [hT]
      exact ⟨h0, h1⟩
    · by_cases hc : s.currentTimer ≤ 0
      · have hT : tick s = { s with currentTimer := 0 } := by simp [tick, hi, hc]
        rw [hT]
        exact ⟨le_refl 0, hm0⟩
      · have hT : tick s = { s with currentTimer := max 0 (s.currentTimer - 1/10) } := by
          simp [tick, hi, hc]
        rw [hT]
        exact ⟨le_max_left 0 _, max_le hm0 (by linarith)⟩

/-- Witness for C8 amended at a concrete state and snapshot. -/
theorem timer_in_range_witness :
    (0 ≤ (onSnapshot { currentTimer := 12, maxTimer := 30, intervalActive := true }
            { timer := some 27, phase := "BAN_1" }).currentTimer ∧
      (onSnapshot { currentTimer := 12, maxTimer := 30, intervalActive := true }
            { timer := some 27, phase := "BAN_1" }).currentTimer ≤
        (onSnapshot { currentTimer := 12, maxTimer := 30, intervalActive := true }
            { timer := some 27, phase := "BAN_1" }).maxTimer) ∧
    (0 ≤ (tick { currentTimer := 12, maxTimer := 30, intervalActive := true }).currentTimer ∧
      (tick { currentTimer := 12, maxTimer := 30, intervalActive := true }).currentTimer ≤
        (tick { currentTimer := 12, maxTimer := 30, intervalActive := true }).maxTimer) :=
  timer_in_range _ _ (by decide) (by decide)
    (by intro t ht; cases ht; exact ⟨by decide, by decide⟩)

/-- C1 counterexample: two advisory requests start (generations g1 then
g2); the g2 response (`respLater`) arrives first and the g1 response
(`respEarlier`) arrives last.  `setRecommendations` applies each arrival
unconditionally — there is no generation token — so once both responses
have arrived the projection reflects the stale g1 content, not g2's. -/
theorem stale_response_overwrites_counterexample :
    (panelRun {} [PanelEvent.start, PanelEvent.start,
        PanelEvent.success respLater, PanelEvent.success respEarlier]).recommendations
        = some respEarlier ∧
      respEarlier ≠ respLater :=
  ⟨rfl, by decide⟩

/-- C1 amended: the code carries no generation token and discards nothing;
responses are applied in arrival order, so once all responses have arrived
the projection reflects whichever response arrived last in wall-clock order
— in the claim's scenario (R2 arriving before R1), R1's content, not
R2's. -/
theorem latest_arrival_wins (s : PanelState) (pre : List PanelEvent)
    (result : RecommendationsResult) :
    (panelRun s (pre ++ [PanelEvent.success result])).recommendations = some result := by
  simp [panelRun, List.foldl_append, panelStep]

/-- C2 counterexample: in `dsLocked` the operator's cell is LOCKED
(`hasPlayerLockedChampion` holds), yet a draft-state change still schedules
an advisory request — the coordinator keeps issuing requests after the
lock. -/
theorem locked_still_requests_counterexample :
    hasPlayerLockedChampion dsLocked = true ∧
    (onDraftChange {} dsLocked none).pending = some (dsLocked, none) :=
  ⟨rfl, rfl⟩

/-- C2 amended: once the operator's cell is LOCKED
(`hasPlayerLockedChampion`), the panel's rendered advisory output is
suppressed (`null`), but the debounced effect still schedules an advisory
request on every draft-state or role change — request issuing is not
stopped. -/
theorem locked_suppresses_render_not_requests (es : PanelEffectState)
    (p : PanelState) (ds : DraftState) (role : Option String)
    (h : hasPlayerLockedChampion ds = true) :
    renderPanel ds p = PanelRender.hidden ∧
    (onDraftChange es ds role).pending = some (ds, role) :=
  ⟨by simp [renderPanel, h], rfl⟩

/-- Witness for C2 amended at the concrete locked snapshot. -/
theorem locked_suppresses_render_not_requests_witness :
    renderPanel dsLocked {} = PanelRender.hidden ∧
    (onDraftChange {} dsLocked (some "TOP")).pending = some (dsLocked, some "TOP") :=
  locked_suppresses_render_not_requests {} {} dsLocked (some "TOP") rfl

/-- C3 counterexample: while `appInDraft` holds a current snapshot, the
connectivity probe fails, and the next phase poll also fails.  The draft
snapshot survives both — nothing clears it on the
CONNECTED-IN-DRAFT → DISCONNECTED transition. -/
theorem disconnect_keeps_snapshot_counterexample :
    (autoConnectFail appInDraft).draftState = some dsInDraft ∧
    (phaseCheckTick (autoConnectFail appInDraft) none).draftState = some dsInDraft :=
  ⟨rfl, rfl⟩

/-- C3 amended: a connectivity-probe failure clears the monitoring flag and
the player info (summoner, ranked stats, match history) but retains the
draft snapshot unchanged; the phase poll ignores probe errors, so the
snapshot is cleared only by a successful phase probe reporting a phase
outside champ select. -/
theorem probe_failure_clears_player_info_not_snapshot (s : AppState) :
    (autoConnectFail s).draftState = s.draftState ∧
    (autoConnectFail s).summonerInfo = none ∧
    (autoConnectFail s).rankedStats = [] ∧
    (autoConnectFail s).matchHistory = [] ∧
    (autoConnectFail s).monitoringStarted = false ∧
    phaseCheckTick s none = s :=
  ⟨rfl, rfl, rfl, rfl, rfl, rfl⟩

/-- C5 counterexample: a reachable session shows two cells of one team with
the same non-default role.  Trace: `dsBefore` arrives (no roles anywhere);
the operator picks TOP for cell 1 from the offered roles; `dsAfter` arrives
with the integration assigning TOP to cell 2.  Cell 1 then displays the
manual TOP and cell 2 the assigned TOP — the projection does not enforce
role uniqueness. -/
theorem role_uniqueness_counterexample :
    Relation.ReflTransGen SessionStep initSession sessionBad ∧
      duplicateDisplayedRole sessionBad = true := by
  constructor
  · have st1 : SessionStep initSession sessionOne :=
      SessionStep.snapshot initSession dsBefore
    have st2 : SessionStep sessionOne sessionTwo :=
      SessionStep.roleSelect sessionOne dsBefore teamBefore cellOne "TOP" rfl
        (by decide) (by decide) (by decide)
    have st3 : SessionStep sessionTwo sessionBad :=
      SessionStep.snapshot sessionTwo dsAfter
    exact Relation.ReflTransGen.head st1
      (Relation.ReflTransGen.head st2 (Relation.ReflTransGen.single st3))
  · decide

/-- C5 amended: when roles are offered to the operator, a role displayed by
any other cell of the team is excluded unless it equals the operator's own
displayed role, and the operator's own displayed role is always offered;
but role uniqueness is not an invariant of the projection — a snapshot can
assign a role already held manually (see the counterexample). -/
theorem roles_offer_exclusion (team : Team) (manualRoles : RoleMap)
    (cell other : Cell) (r r0 : String)
    (ho : other ∈ team.cells) (hne : other.cell_id ≠ cell.cell_id)
    (hheld : displayRole manualRoles other = some r) (hr : r ≠ "")
    (hnotown : displayRole manualRoles cell ≠ some r)
    (hdisp : displayRole manualRoles cell = some r0) (hR : r0 ∈ ROLES) :
    r ∉ availableRoles (getTakenRoles team manualRoles cell.cell_id)
        (displayRole manualRoles cell) ∧
      r0 ∈ availableRoles (getTakenRoles team manualRoles cell.cell_id)
        (displayRole manualRoles cell) := by
  have htaken : r ∈ getTakenRoles team manualRoles cell.cell_id := by
    unfold getTakenRoles
    rw [List.mem_filterMap]
    refine ⟨some r, ?_, by simp [hr]⟩
    rw [List.mem_map]
    refine ⟨other, ?_, hheld⟩
    rw [List.mem_filter]
    exact ⟨ho, by simpa using hne⟩
  constructor
  · intro hmem
    unfold availableRoles at hmem
    rw [List.mem_filter] at hmem
    rcases hmem with ⟨-, hq⟩
    have hc : (getTakenRoles team manualRoles cell.cell_id).contains r = true := by
      simpa using htaken
    rw [hc] at hq
    simp at hq
    exact hnotown (by simpa using hq)
  · unfold availableRoles
    rw [List.mem_filter]
    exact ⟨hR, by simp [hdisp]⟩

/-- Witness for C5 amended: in `teamAfter` with manual map
`[(1, "JUNGLE")]`, cell 1's JUNGLE is excluded from cell 2's offer while
cell 2's own displayed TOP stays offered. -/
theorem roles_offer_exclusion_witness :
    "JUNGLE" ∉ availableRoles
        (getTakenRoles teamAfter [(1, "JUNGLE")] 2)
        (displayRole [(1, "JUNGLE")] cellTwoAssigned) ∧
      "TOP" ∈ availableRoles
        (getTakenRoles teamAfter [(1, "JUNGLE")] 2)
        (displayRole [(1, "JUNGLE")] cellTwoAssigned) :=
  roles_offer_exclusion teamAfter [(1, "JUNGLE")] cellTwoAssigned cellOne
    "JUNGLE" "TOP" (by decide) (by decide) rfl (by decide) (by decide) rfl (by decide)

/-- C6: if every triggering change in a burst arrives strictly before the
300ms debounce window of its predecessor elapses, exactly one advisory
request is eventually issued, and it carries the state of the last
change. -/
theorem debounce_single_request {α : Type} (events : List (Nat × α)) (a : Nat × α)
    (h : List.Chain' (fun p q => q.1 < p.1 + DEBOUNCE_MS) events)
    (hlast : events.getLast? = some a) :
    debouncedRequests events = [a.2] := by
  induction events with
  | nil => simp at hlast
  | cons e rest ih =>
    cases rest with
    | nil =>
      rw [List.getLast?_singleton] at hlast
      cases Option.some.inj hlast
      rfl
    | cons f rs =>
      rw [List.chain'_cons] at h
      rcases h with ⟨h1, h2⟩
      rw [List.getLast?_cons_cons] at hlast
      have hstep : debouncedRequests (e :: f :: rs) = debouncedRequests (f :: rs) := by
        simp [debouncedRequests, h1]
      rw [hstep]
      exact ih h2 hlast

/-- Witness for C6: five snapshot updates 100ms apart (under the 300ms
threshold) issue exactly one request, carrying the fifth snapshot. -/
theorem debounce_single_request_witness :
    debouncedRequests
        [(0, snapAt 1), (100, snapAt 2), (200, snapAt 3), (300, snapAt 4), (400, snapAt 5)]
      = [snapAt 5] :=
  debounce_single_request
    [(0, snapAt 1), (100, snapAt 2), (200, snapAt 3), (300, snapAt 4), (400, snapAt 5)]
    (400, snapAt 5) (by simp [List.chain'_cons, DEBOUNCE_MS]) rfl

/-- C9 counterexample: with no local-player identity (`currentPlayerCellId`
null, nothing selected yet), the role-selection control is offered to both
cells of the first (blue) team — the code guesses instead of deferring. -/
theorem no_identity_still_offers_counterexample :
    roleSelectionOffered dsNoId teamNoId { cell_id := 1 } none none true = true ∧
    roleSelectionOffered dsNoId teamNoId { cell_id := 2 } none none true = true :=
  ⟨rfl, rfl⟩

/-- C9 amended: while no local-player identity is available, role selection
is not deferred: the control is offered to every cell of the first (blue)
team, and once a cell has been chosen (`selectedCellForRole` nonzero) it is
offered exactly to that cell. -/
theorem no_identity_offers_first_team (ds : DraftState) (team : Team) (cell : Cell)
    (k : Int) (hk : k ≠ 0) :
    roleSelectionOffered ds team cell none none true = true ∧
    roleSelectionOffered ds team cell none (some k) true = (cell.cell_id == k) := by
  constructor
  · simp [roleSelectionOffered, isPlayerTeam, isCurrentPlayer, jsTruthy]
  · simp [roleSelectionOffered, isPlayerTeam, isCurrentPlayer, jsTruthy, hk]

/-- Witness for C9 amended at a concrete cell and selection. -/
theorem no_identity_offers_first_team_witness :
    roleSelectionOffered dsNoId teamNoId { cell_id := 1 } none none true = true ∧
    roleSelectionOffered dsNoId teamNoId { cell_id := 1 } none (some 2) true = false :=
  no_identity_offers_first_team dsNoId teamNoId { cell_id := 1 } 2 (by decide)

/-- C10: for a cell with both an integration-assigned position and a
nonempty manual role entry, the role sent with the advisory request
(`getCurrentPlayerRole`, manual-first) is the manual entry, while the role
displayed on the cell (`displayRole`, assigned-first) is the assigned
position — opposite priorities. -/
theorem advisory_role_opposite_display (ds : DraftState) (manualRoles : RoleMap)
    (cid : Int) (cell : Cell) (m a : String)
    (hid : ds.local_player_cell_id = some cid)
    (hfind : findPlayerCell ds cid = some cell)
    (hm : mapGet manualRoles cell.cell_id = some m) (hm0 : m ≠ "")
    (ha : cell.assigned_position = some a) (ha0 : a ≠ "") :
    getCurrentPlayerRole ds manualRoles = some m ∧
    displayRole manualRoles cell = some a := by
  constructor
  · simp [getCurrentPlayerRole, hid, hfind, jsOrStr, strTruthy, hm, hm0]
  · simp [displayRole, jsOrStr, strTruthy, ha, ha0]

/-- Witness for C10: cell 1 has assigned TOP and manual JUNGLE; the
advisory request carries JUNGLE while the cell displays TOP. -/
theorem advisory_role_opposite_display_witness :
    getCurrentPlayerRole dsBothRoles [(1, "JUNGLE")] = some "JUNGLE" ∧
    displayRole [(1, "JUNGLE")] { cell_id := 1, assigned_position := some "TOP" } = some "TOP" :=
  advisory_role_opposite_display dsBothRoles [(1, "JUNGLE")] 1
    { cell_id := 1, assigned_position := some "TOP" } "JUNGLE" "TOP"
    rfl rfl rfl (by decide) rfl (by decide)

end Trackimo
